import Mathlib

/-!
Verification development for the MCP_Monitor decision pipeline.

The Python sources under scrutiny are `core/risk_assessor.py`,
`core/rule_engine.py`, `core/orchestrator.py`, `mcp_manager/tool_router.py`,
`mcp_manager/service_manager.py` and `database/postgresql.py`.  Pure
functions are translated directly; database writes are modelled by explicit
state passing; Python floats are modelled by rationals; Python `None` and
absent dictionary keys are modelled by `Option`.
-/

namespace MCPMonitor

/-- Boolean test that the first character list starts the second
(used to build substring containment, mirroring the Python `in` operator). -/
def matchHead : List Char → List Char → Bool
  | [], _ => true
  | _ :: _, [] => false
  | a :: as, b :: bs => a == b && matchHead as bs

/-- Boolean substring containment on character lists.  `hasSubstr pat s`
models the Python expression `pat in s` for strings: the empty pattern is
contained in every string. -/
def hasSubstr (pat : List Char) : List Char → Bool
  | [] => matchHead pat []
  | c :: rest => matchHead pat (c :: rest) || hasSubstr pat rest

/-- Characters of a string lower-cased, modelling Python `str.lower()` on the
code points exercised by this development. -/
def lowerChars (s : String) : List Char :=
  s.data.map Char.toLower

/-- Stringification used by `_calculate_parameter_risk`
(`str(value).lower() if value is not None else ""`): a `None` value
contributes the empty string, any other value its lower-cased `str()`. -/
def pyValueStr : Option String → List Char
  | none => []
  | some v => lowerChars v

/-- Python `str(value)` as used in f-strings: `None` prints as `"None"`. -/
def pyStr : Option String → String
  | none => "None"
  | some v => v

/-!  ## RiskAssessor (`core/risk_assessor.py`)

Tool parameters (a Python dict of arbitrary values) are modelled as an
association list from parameter name to the optional stringified value;
`none` models a `None` value.  Scores are rationals.  The textual
`reasons` list produced by `_generate_risk_reasons` is not modelled: no
claim inspects it and it feeds back into no computation. -/

/-- The `tool_risk_levels` table of `RiskAssessor.__init__`, in insertion
order (Python dicts iterate in insertion order). -/
def toolRiskLevels : List (String × ℚ) :=
  [ ("delete", 9/10), ("remove", 9/10), ("drop", 95/100), ("truncate", 95/100),
    ("format", 1), ("execute", 85/100), ("exec", 85/100), ("eval", 85/100),
    ("payment", 9/10), ("transfer", 9/10),
    ("update", 6/10), ("modify", 6/10), ("write", 5/10), ("insert", 5/10),
    ("send", 5/10), ("post", 5/10),
    ("read", 1/10), ("get", 1/10), ("list", 1/10), ("search", 1/10),
    ("query", 2/10) ]

/-- `RiskAssessor._calculate_base_risk`: the risk of the first keyword of the
table contained in the lower-cased tool name, defaulting to 0.3. -/
def calculateBaseRisk (toolName : String) : ℚ :=
  match toolRiskLevels.find? (fun kv => hasSubstr kv.1.data (lowerChars toolName)) with
  | some kv => kv.2
  | none => 3/10

/-- The `sensitive_patterns` list of `_calculate_parameter_risk`. -/
def sensitivePatterns : List String :=
  [ "password", "secret", "token", "key", "credential",
    "root", "admin", "system", "sudo",
    "*", "all", "recursive", "force" ]

/-- Python `min(a, b)` on two numbers. -/
def ratMin (a b : ℚ) : ℚ := if a ≤ b then a else b

/-- Python `max(a, b)` on two numbers. -/
def ratMax (a b : ℚ) : ℚ := if b ≤ a then a else b

/-- One iteration of the parameter loop of `_calculate_parameter_risk`: the
entry counts (once, via the `break`) when some sensitive pattern occurs in
the lower-cased parameter name or in the stringified lower-cased value. -/
def entryIsSensitive (e : String × Option String) : Bool :=
  sensitivePatterns.any (fun pat =>
    hasSubstr pat.data (lowerChars e.1) || hasSubstr pat.data (pyValueStr e.2))

/-- Number of parameter entries that trip the sensitive-pattern scan. -/
def countSensitiveEntries (ps : List (String × Option String)) : ℕ :=
  (ps.filter entryIsSensitive).length

/-- `RiskAssessor._calculate_parameter_risk`: 0 for an empty parameter dict;
otherwise 0.3 per sensitive entry, capped at 1.0 when at least one entry
tripped. -/
def calculateParameterRisk (ps : List (String × Option String)) : ℚ :=
  if ps.isEmpty then 0
  else
    let k := countSensitiveEntries ps
    let score : ℚ := (k : ℚ) * (3/10)
    if 0 < k then ratMin score 1 else score

/-- The `analyze_historical_feedback` summary consumed by the assessor:
`has_history` plus the categorical `risk_indication` (callers pass
`"unknown"` when the key is absent, mirroring `dict.get`). -/
structure HistoricalAnalysis where
  hasHistory : Bool
  riskIndication : String
deriving DecidableEq

/-- The `risk_mapping` lookup of `_calculate_historical_risk`
(`dict.get(indication, 0.3)`). -/
def riskMapping (ind : String) : ℚ :=
  if ind = "low" then 2/10
  else if ind = "medium" then 5/10
  else if ind = "high" then 8/10
  else 3/10

/-- `RiskAssessor._calculate_historical_risk`: 0.3 without history,
otherwise the mapped categorical indication. -/
def calculateHistoricalRisk : Option HistoricalAnalysis → ℚ
  | none => 3/10
  | some h => if h.hasHistory then riskMapping h.riskIndication else 3/10

/-- A rule as loaded from the rules JSON (`rule_engine.py`).  Absent
dictionary keys are `none`; `condition.parameter_check` is an association
list from parameter name to pattern. -/
structure Rule where
  ruleId : String
  name : Option String
  action : Option String
  riskScore : Option ℚ
  toolNamePattern : Option String
  parameterCheck : List (String × String)
deriving DecidableEq

/-- Result dictionary of `RuleEngine.check_tool_call`. -/
structure RuleCheckResult where
  blacklistHit : Bool
  matchedRules : List Rule
  blocked : Bool
  forceConfirm : Bool
  messages : List String
deriving DecidableEq

/-- Python `max(gen, default=d)`: the default is used only on an empty
list, otherwise the genuine maximum of the elements. -/
def maxWithDefault (d : ℚ) : List ℚ → ℚ
  | [] => d
  | x :: xs => xs.foldl ratMax x

/-- `RiskAssessor._calculate_rule_risk`: 1.0 on a blacklist hit, else the
maximal `risk_score` (default 0.5) among matched rules, else 0. -/
def calculateRuleRisk : Option RuleCheckResult → ℚ
  | none => 0
  | some r =>
    if r.blacklistHit then 1
    else if r.matchedRules.isEmpty then 0
    else maxWithDefault 0 (r.matchedRules.map (fun rule => rule.riskScore.getD (1/2)))

/-- The two thresholds read by `RiskAssessor.__init__` from the
configuration. -/
structure RiskConfig where
  confirmationThreshold : ℚ
  highRiskThreshold : ℚ
deriving DecidableEq

/-- The default configuration (`confirmation_threshold` 0.6,
`high_risk_threshold` 0.8). -/
def defaultRiskConfig : RiskConfig := ⟨6/10, 8/10⟩

/-- The clamp `max(0.0, min(1.0, final_score))` of `assess_tool_risk`. -/
def clamp01 (x : ℚ) : ℚ := ratMax 0 (ratMin 1 x)

/-- The result dictionary of `assess_tool_risk` (score, level, confirmation
flag and the sub-score breakdown). -/
structure RiskAssessment where
  riskScore : ℚ
  riskLevel : String
  requiresConfirmation : Bool
  baseRisk : ℚ
  parameterRisk : ℚ
  historicalRisk : ℚ
  ruleRisk : ℚ
deriving DecidableEq

/-- `RiskAssessor.assess_tool_risk`: weighted sum 0.3/0.2/0.3/0.2 of the
four sub-scores, clamped to [0,1]; confirmation iff the clamped score
reaches the confirmation threshold; level bucketing by the two
thresholds. -/
def assessToolRisk (cfg : RiskConfig) (toolName : String)
    (params : List (String × Option String))
    (hist : Option HistoricalAnalysis) (ruleResult : Option RuleCheckResult) :
    RiskAssessment :=
  let baseScore := calculateBaseRisk toolName
  let paramScore := calculateParameterRisk params
  let historyScore := calculateHistoricalRisk hist
  let ruleScore := calculateRuleRisk ruleResult
  let finalScore := clamp01
    (baseScore * (3/10) + paramScore * (2/10) + historyScore * (3/10) + ruleScore * (2/10))
  { riskScore := finalScore
    riskLevel :=
      if cfg.highRiskThreshold ≤ finalScore then "high"
      else if cfg.confirmationThreshold ≤ finalScore then "medium"
      else "low"
    requiresConfirmation := decide (cfg.confirmationThreshold ≤ finalScore)
    baseRisk := baseScore
    parameterRisk := paramScore
    historicalRisk := historyScore
    ruleRisk := ruleScore }

/-!  ## RuleEngine (`core/rule_engine.py`)

Configured regular-expression patterns are modelled for the literal
fragment actually exercised by the configuration files: a pattern without
metacharacters matches a string exactly where it occurs as a substring,
and — as `re.search` does — the empty pattern matches every string.
`re.IGNORECASE` is modelled by lower-casing both sides. -/

/-- Case-sensitive `re.search(pattern, s)` for literal patterns. -/
def reSearch (pat s : String) : Bool :=
  hasSubstr pat.data s.data

/-- Case-insensitive `re.search(pattern, s, re.IGNORECASE)` for literal
patterns. -/
def reSearchIC (pat s : String) : Bool :=
  hasSubstr (lowerChars pat) (lowerChars s)

/-- One entry of the `blocked_tools` blacklist section.  The pattern is read
with `blocked_tool.get("tool_name", "")`, so an absent key is the empty
string; the optional reason falls back to a fixed message. -/
structure BlockedTool where
  toolName : String
  reason : Option String
deriving DecidableEq

/-- One entry of the `blocked_parameters` blacklist section
(`.get("pattern", "")`, `.get("case_sensitive", False)`). -/
structure BlockedParam where
  pattern : String
  caseSensitive : Bool
  reason : Option String
deriving DecidableEq

/-- The loaded blacklist configuration. -/
structure Blacklist where
  blockedTools : List BlockedTool
  blockedParams : List BlockedParam
deriving DecidableEq

/-- Intermediate result of `RuleEngine._check_blacklist`. -/
structure BlacklistCheck where
  blocked : Bool
  messages : List String
deriving DecidableEq

/-- The tool-name test of the `blocked_tools` loop:
`tool_name == tool_name_pattern or re.search(tool_name_pattern, tool_name)`. -/
def toolHit (toolName : String) (bt : BlockedTool) : Bool :=
  toolName == bt.toolName || reSearch bt.toolName toolName

/-- The `blocked_tools` loop of `_check_blacklist`: the first hit records a
block with its reason and breaks. -/
def blockedToolScan (toolName : String) : List BlockedTool → BlacklistCheck
  | [] => ⟨false, []⟩
  | bt :: rest =>
    if toolHit toolName bt then
      ⟨true, ["黑名单拦截: " ++ bt.reason.getD "此工具已被禁用"]⟩
    else blockedToolScan toolName rest

/-- The inner parameter test of the `blocked_parameters` loop: the pattern
is searched in `f"{param_name}={param_value}"` with the configured case
sensitivity. -/
def paramHit (bp : BlockedParam) (p : String × Option String) : Bool :=
  if bp.caseSensitive then reSearch bp.pattern (p.1 ++ "=" ++ pyStr p.2)
  else reSearchIC bp.pattern (p.1 ++ "=" ++ pyStr p.2)

/-- The `blocked_parameters` loop of `_check_blacklist`.  Each entry scans
the parameters, recording a block plus one reason message at the first
matching parameter; the loop stops as soon as the accumulated result is
blocked (also when the block came from the tool-name stage). -/
def blockedParamScan (params : List (String × Option String)) :
    List BlockedParam → BlacklistCheck → BlacklistCheck
  | [], acc => acc
  | bp :: rest, acc =>
    let acc2 :=
      if params.any (paramHit bp) then
        ⟨true, acc.messages ++ ["参数拦截: " ++ bp.reason.getD "参数包含敏感信息"]⟩
      else acc
    if acc2.blocked then acc2 else blockedParamScan params rest acc2

/-- `RuleEngine._check_blacklist`: the tool-name scan followed by the
parameter scan. -/
def checkBlacklist (bl : Blacklist) (toolName : String)
    (params : List (String × Option String)) : BlacklistCheck :=
  blockedParamScan params bl.blockedParams (blockedToolScan toolName bl.blockedTools)

/-- The tool-name-pattern part of `RuleEngine._match_rule`: a falsy pattern
(absent or empty) is skipped, otherwise the pattern must match the tool
name case-insensitively. -/
def patOk (pat : Option String) (toolName : String) : Bool :=
  match pat with
  | none => true
  | some p => if p = "" then true else reSearchIC p toolName

/-- One declared parameter check of `_match_rule`: the parameter must be
present and its stringified value must match the pattern
case-insensitively. -/
def paramCheckOk (params : List (String × Option String)) (pc : String × String) : Bool :=
  match params.lookup pc.1 with
  | none => false
  | some v => reSearchIC pc.2 (pyStr v)

/-- `RuleEngine._match_rule`: the tool-name pattern (when present) and every
declared parameter check must pass. -/
def matchRule (r : Rule) (toolName : String)
    (params : List (String × Option String)) : Bool :=
  patOk r.toolNamePattern toolName && r.parameterCheck.all (paramCheckOk params)

/-- Loaded state of a `RuleEngine` instance: the blacklist and the rule
list. -/
structure RuleEngineState where
  blacklist : Blacklist
  rules : List Rule
deriving DecidableEq

/-- One iteration of the rule loop of `check_tool_call`: a matching rule is
appended, its action (`.get("action", "log")`) sets `force_confirm` or
`blocked`, and a display message is appended. -/
def ruleStep (toolName : String) (params : List (String × Option String))
    (acc : RuleCheckResult) (r : Rule) : RuleCheckResult :=
  if matchRule r toolName params then
    let action := r.action.getD "log"
    { acc with
      matchedRules := acc.matchedRules ++ [r]
      forceConfirm := if action = "force_confirm" then true else acc.forceConfirm
      blocked := if action = "block" then true else acc.blocked
      messages := acc.messages ++ ["匹配规则: " ++ (r.name.getD r.ruleId)] }
  else acc

/-- The initial result dictionary of `check_tool_call`. -/
def emptyRuleCheckResult : RuleCheckResult :=
  { blacklistHit := false, matchedRules := [], blocked := false,
    forceConfirm := false, messages := [] }

/-- `RuleEngine.check_tool_call`: a blacklist hit short-circuits with
`blacklist_hit` and `blocked` set and the blacklist messages; otherwise
every rule is folded over the initial result. -/
def checkToolCall (eng : RuleEngineState) (toolName : String)
    (params : List (String × Option String)) : RuleCheckResult :=
  let blc := checkBlacklist eng.blacklist toolName params
  if blc.blocked then
    { blacklistHit := true, matchedRules := [], blocked := true,
      forceConfirm := false, messages := blc.messages }
  else
    eng.rules.foldl (ruleStep toolName params) emptyRuleCheckResult

/-!  ## Orchestrator per-call pipeline (`core/orchestrator.py`)

`MCPOrchestrator._process_tool_call` is modelled as a state-passing
function.  The database effects it performs — `create_tool_call_history`
(an insert into the append-only audit table, `postgresql.py`) and
`store_question_embedding` (an insert into the vector index keyed by the
new record id, `rag_retriever.py`) — are modelled as appends to an
explicit `DBState`.  The RAG reads (`retrieve_similar_cases` /
`analyze_historical_feedback`) do not write, so their outcome enters as
the `hist` argument.  The generated confirmation prose and the context
fields of the audit record are not modelled: no claim inspects them. -/

/-- The persisted `ToolCallHistory` fields a claim can observe. -/
structure HistoryRecord where
  requestId : String
  userId : String
  userQuestion : String
  toolName : String
  toolParameters : List (String × Option String)
  riskScore : ℚ
  requiresConfirmation : Bool
  matchedRuleIds : List String
  blacklistHit : Bool
deriving DecidableEq

/-- The mutable stores touched by `_process_tool_call`: the audit-trail
table (new records get id = current length) and the vector index of stored
question embeddings (question text keyed to the record id). -/
structure DBState where
  histories : List HistoryRecord
  vectors : List (String × ℕ)
deriving DecidableEq

/-- The per-call result dictionary assembled by `_process_tool_call`.
`riskLevel` is `none` on the blocked branch, which returns a dictionary
without that key. -/
structure ToolCallOutcome where
  toolCallId : String
  toolName : String
  toolParameters : List (String × Option String)
  requiresConfirmation : Bool
  blocked : Bool
  riskScore : ℚ
  riskLevel : Option String
  messages : List String
deriving DecidableEq

/-- `MCPOrchestrator._process_tool_call`: rule check; a blocked call
returns immediately with `requires_confirmation=False`, `blocked=True`,
`risk_score=1.0` and the rule messages, touching no store; otherwise the
risk assessment runs, `requires_confirmation` ORs in `force_confirm`, an
audit record is inserted and the question embedding stored under the new
record's id. -/
def processToolCall (eng : RuleEngineState) (cfg : RiskConfig)
    (requestId userId userQuestion toolCallId toolName : String)
    (params : List (String × Option String))
    (hist : Option HistoricalAnalysis) (db : DBState) :
    ToolCallOutcome × DBState :=
  let ruleResult := checkToolCall eng toolName params
  if ruleResult.blocked then
    ({ toolCallId := toolCallId, toolName := toolName, toolParameters := params,
       requiresConfirmation := false, blocked := true, riskScore := 1,
       riskLevel := none, messages := ruleResult.messages }, db)
  else
    let riskResult := assessToolRisk cfg toolName params hist (some ruleResult)
    let requiresConfirmation := riskResult.requiresConfirmation || ruleResult.forceConfirm
    let hrec : HistoryRecord :=
      { requestId := requestId, userId := userId, userQuestion := userQuestion,
        toolName := toolName, toolParameters := params,
        riskScore := riskResult.riskScore,
        requiresConfirmation := requiresConfirmation,
        matchedRuleIds := ruleResult.matchedRules.map (fun r => r.ruleId),
        blacklistHit := ruleResult.blacklistHit }
    let dbId := db.histories.length
    let db2 : DBState :=
      { histories := db.histories ++ [hrec],
        vectors := db.vectors ++ [(userQuestion, dbId)] }
    ({ toolCallId := toolCallId, toolName := toolName, toolParameters := params,
       requiresConfirmation := requiresConfirmation, blocked := false,
       riskScore := riskResult.riskScore, riskLevel := some riskResult.riskLevel,
       messages := [] }, db2)

/-- The draft loop of `MCPOrchestrator.process_query` (lines 126-157): the
model-emitted tool-call drafts are evaluated strictly in order and the
per-call results collected.  Each evaluation may fault (`Except.error`
models a raised exception, e.g. `eval` choking on malformed arguments);
the loop body has no per-draft handler, and the surrounding
`try/except` logs and re-raises, so a fault propagates and the remaining
drafts are never evaluated. -/
def processDrafts {α β ε : Type} (ev : α → Except ε β) : List α → Except ε (List β)
  | [] => Except.ok []
  | d :: rest =>
    match ev d with
    | Except.error e => Except.error e
    | Except.ok r =>
      match processDrafts ev rest with
      | Except.error e => Except.error e
      | Except.ok rs => Except.ok (r :: rs)

/-!  ## Service registry and circuit breaker
(`mcp_manager/service_manager.py`, `database/postgresql.py`)

Timestamps are rationals (seconds); `datetime` columns that may be NULL
are `Option`. -/

/-- One tool dictionary of a service's `tools` JSON column, as far as the
router reads it: `tool.get("name")` and `tool.get("function", {}).get("name")`. -/
structure Tool where
  name : Option String
  functionName : Option String
deriving DecidableEq

/-- The `MCPService` row fields read by the router and the breaker. -/
structure ServiceRecord where
  serviceName : String
  isActive : Bool
  healthStatus : String
  failedCalls : ℕ
  circuitBreakerState : String
  circuitBreakerOpenedAt : Option ℚ
  lastHealthCheck : Option ℚ
  tools : List Tool
  layer : Option String
  domain : Option String
deriving DecidableEq

/-- The breaker configuration of `MCPServiceManager.__init__`
(`failure_threshold`, `timeout_duration`). -/
structure BreakerConfig where
  failureThreshold : ℕ
  timeoutDuration : ℚ
deriving DecidableEq

/-- `PostgreSQLManager.update_service_health` applied to one row: sets the
health status and check time, and — when a truthy breaker state is given —
the breaker state, stamping `circuit_breaker_opened_at` when that state is
`"open"`. -/
def updateServiceHealth (now : ℚ) (healthStatus : String)
    (cbState : Option String) (s : ServiceRecord) : ServiceRecord :=
  let s1 := { s with healthStatus := healthStatus, lastHealthCheck := some now }
  match cbState with
  | none => s1
  | some st =>
    if st = "" then s1
    else
      let s2 := { s1 with circuitBreakerState := st }
      if st = "open" then { s2 with circuitBreakerOpenedAt := some now } else s2

/-- `MCPServiceManager.update_circuit_breaker` on an existing service row:
closed + failure report + `failed_calls` at the threshold opens the
breaker; open + elapsed timeout half-opens it; half-open closes on success
(health `healthy`) and re-opens on failure (health `degraded`); in every
other situation the row is untouched. -/
def updateCircuitBreaker (cfg : BreakerConfig) (now : ℚ) (success : Bool)
    (s : ServiceRecord) : ServiceRecord :=
  if s.circuitBreakerState = "closed" then
    if success then s
    else if cfg.failureThreshold ≤ s.failedCalls then
      updateServiceHealth now s.healthStatus (some "open") s
    else s
  else if s.circuitBreakerState = "open" then
    match s.circuitBreakerOpenedAt with
    | none => s
    | some t =>
      if cfg.timeoutDuration ≤ now - t then
        updateServiceHealth now s.healthStatus (some "half_open") s
      else s
  else if s.circuitBreakerState = "half_open" then
    if success then updateServiceHealth now "healthy" (some "closed") s
    else updateServiceHealth now "degraded" (some "open") s
  else s

/-!  ## ToolRouter (`mcp_manager/tool_router.py`) -/

/-- `PostgreSQLManager.get_active_services`: rows with `is_active` true,
further filtered by layer when a truthy layer is given; table order is
preserved. -/
def getActiveServices (services : List ServiceRecord) (layer : Option String) :
    List ServiceRecord :=
  let active := services.filter (fun s => s.isActive)
  match layer with
  | none => active
  | some L => if L = "" then active else active.filter (fun s => s.layer == some L)

/-- `ToolRouter._get_core_tools`: all tools of active L1 services,
concatenated in service order (a falsy `tools` column contributes
nothing). -/
def getCoreTools (services : List ServiceRecord) : List Tool :=
  (getActiveServices services (some "L1")).foldl
    (fun acc s => if s.tools.isEmpty then acc else acc ++ s.tools) []

/-- `ToolRouter._get_domain_tools`: all tools of active L2 services tagged
with the given domain. -/
def getDomainTools (services : List ServiceRecord) (domain : String) : List Tool :=
  (getActiveServices services (some "L2")).foldl
    (fun acc s =>
      if s.domain == some domain && !s.tools.isEmpty then acc ++ s.tools else acc) []

/-- The `intent_keywords` table of `ToolRouter.__init__`. -/
def intentKeywords : List (String × List String) :=
  [ ("weather", ["天气", "weather", "温度", "temperature", "forecast"]),
    ("email", ["邮件", "email", "发送", "send", "mail"]),
    ("file", ["文件", "file", "目录", "directory", "folder"]),
    ("database", ["数据库", "database", "查询", "query", "sql"]),
    ("network", ["网络", "network", "请求", "request", "api", "http"]),
    ("calculation", ["计算", "calculate", "数学", "math"]) ]

/-- `ToolRouter._detect_intent`: intents whose keyword list has a
case-insensitive substring hit in the question, in table order; a synthetic
`"general"` intent when none hit. -/
def detectIntent (question : String) : List String :=
  let ql := lowerChars question
  let detected :=
    (intentKeywords.filter
      (fun ik => ik.2.any (fun kw => hasSubstr (lowerChars kw) ql))).map (fun ik => ik.1)
  if detected.isEmpty then ["general"] else detected

/-- The display name used for routing deduplication:
`tool.get("name") or tool.get("function", {}).get("name")` (a falsy `name`
falls through to the function name). -/
def toolDisplayName (t : Tool) : Option String :=
  match t.name with
  | some n => if n = "" then t.functionName else some n
  | none => t.functionName

/-- `ToolRouter._get_explicit_tools`: over all active services, the tools
whose display name occurs in the requested list. -/
def getExplicitTools (services : List ServiceRecord) (toolNames : List String) :
    List Tool :=
  (getActiveServices services none).foldl
    (fun acc s =>
      if s.tools.isEmpty then acc
      else acc ++ s.tools.filter (fun t =>
        match toolDisplayName t with
        | some n => toolNames.contains n
        | none => false)) []

/-- The deduplication pass of `route_tools`: first-seen order wins, tools
with a falsy display name are dropped. -/
def dedupByName (tools : List Tool) : List Tool :=
  (tools.foldl
    (fun (acc : List String × List Tool) t =>
      match toolDisplayName t with
      | some n =>
        if n ≠ "" ∧ ¬ acc.1.contains n then (acc.1 ++ [n], acc.2 ++ [t]) else acc
      | none => acc)
    ([], [])).2

/-- The routing result fields a claim can observe. -/
structure RoutingResult where
  totalTools : List Tool
  detectedIntents : List String
  activeDomains : List String
deriving DecidableEq

/-- `ToolRouter.route_tools` on the path taken by the orchestrator (no
`explicit_tools`): core tools, then the domain tools of each detected
intent, then the user's preferred tools (`none` models a missing user or
preference row), merged and deduplicated by display name. -/
def routeTools (services : List ServiceRecord) (question : String)
    (userPreferredTools : Option (List String)) : RoutingResult :=
  let coreTools := getCoreTools services
  let intents := detectIntent question
  let domainResults := intents.map (fun it => (it, getDomainTools services it))
  let domainTools := domainResults.foldl (fun acc p => acc ++ p.2) []
  let activeDomains :=
    (domainResults.filter (fun p => ¬ p.2.isEmpty)).map (fun p => p.1)
  let userTools :=
    match userPreferredTools with
    | none => []
    | some names => getExplicitTools services names
  { totalTools := dedupByName (coreTools ++ (domainTools ++ userTools))
    detectedIntents := intents
    activeDomains := activeDomains }

/-- Number of distinct sensitive keywords found across all parameter names
and stringified values (the quantity the claim's wording of the parameter
sub-score counts). -/
def distinctSensitiveKeywords (ps : List (String × Option String)) : ℕ :=
  (sensitivePatterns.filter (fun pat => ps.any (fun e =>
    hasSubstr pat.data (lowerChars e.1) || hasSubstr pat.data (pyValueStr e.2)))).length

/-- Claim-worded variant of the parameter sub-score, for comparison with
`calculateParameterRisk`.  Modelled from the claim's words, not from the
source: a 0.3 increment per DISTINCT sensitive keyword found in any
parameter name or stringified value, capped at 1.0, and 0 for an empty
parameter map. -/
def distinctKeywordParameterRisk (ps : List (String × Option String)) : ℚ :=
  if ps.isEmpty then 0
  else ratMin ((distinctSensitiveKeywords ps : ℚ) * (3/10)) 1

/-!  ## Helper lemmas -/

lemma hasSubstr_nil_left (l : List Char) : hasSubstr [] l = true := by
  cases l <;> simp [hasSubstr, matchHead]

lemma clamp01_nonneg (x : ℚ) : 0 ≤ clamp01 x := by
  unfold clamp01 ratMax ratMin
  split_ifs <;> linarith

lemma clamp01_le_one (x : ℚ) : clamp01 x ≤ 1 := by
  unfold clamp01 ratMax ratMin
  split_ifs <;> linarith

lemma assess_riskScore_def (cfg : RiskConfig) (tn : String)
    (params : List (String × Option String)) (hist : Option HistoricalAnalysis)
    (rr : Option RuleCheckResult) :
    (assessToolRisk cfg tn params hist rr).riskScore =
      clamp01 (calculateBaseRisk tn * (3/10) + calculateParameterRisk params * (2/10) +
        calculateHistoricalRisk hist * (3/10) + calculateRuleRisk rr * (2/10)) := rfl

lemma assess_requiresConfirmation_def (cfg : RiskConfig) (tn : String)
    (params : List (String × Option String)) (hist : Option HistoricalAnalysis)
    (rr : Option RuleCheckResult) :
    (assessToolRisk cfg tn params hist rr).requiresConfirmation =
      decide (cfg.confirmationThreshold ≤ (assessToolRisk cfg tn params hist rr).riskScore) := rfl

lemma blockedToolScan_blocked_messages (tn : String) (bts : List BlockedTool) :
    (blockedToolScan tn bts).blocked = true → (blockedToolScan tn bts).messages ≠ [] := by
  induction bts with
  | nil => simp [blockedToolScan]
  | cons bt rest ih =>
    by_cases h : toolHit tn bt <;> simp [blockedToolScan, h]
    exact fun hb => ih hb

lemma blockedToolScan_blocked_of_hit (tn : String) (bts : List BlockedTool)
    (bt : BlockedTool) (hmem : bt ∈ bts) (hhit : toolHit tn bt = true) :
    (blockedToolScan tn bts).blocked = true := by
  induction bts with
  | nil => cases hmem
  | cons b rest ih =>
    by_cases h : toolHit tn b
    · simp [blockedToolScan, h]
    · rcases List.mem_cons.mp hmem with heq | hmem2
      · exact absurd (heq ▸ hhit) h
      · simpa [blockedToolScan, h] using ih hmem2

lemma blockedParamScan_preserves_blocked (params : List (String × Option String))
    (bps : List BlockedParam) (acc : BlacklistCheck) (h : acc.blocked = true) :
    (blockedParamScan params bps acc).blocked = true := by
  cases bps with
  | nil => simpa [blockedParamScan] using h
  | cons bp rest =>
    by_cases hm : params.any (paramHit bp) <;> simp [blockedParamScan, hm, h]

lemma blockedParamScan_messages_invariant (params : List (String × Option String))
    (bps : List BlockedParam) (acc : BlacklistCheck)
    (h : acc.blocked = true → acc.messages ≠ []) :
    (blockedParamScan params bps acc).blocked = true →
      (blockedParamScan params bps acc).messages ≠ [] := by
  induction bps generalizing acc with
  | nil => simpa [blockedParamScan] using h
  | cons bp rest ih =>
    by_cases hm : params.any (paramHit bp)
    · simp [blockedParamScan, hm]
    · by_cases hb : acc.blocked
      · simp [blockedParamScan, hm, hb]
        exact h hb
      · simp [blockedParamScan, hm, hb]
        exact ih acc h

lemma checkBlacklist_blocked_messages (bl : Blacklist) (tn : String)
    (params : List (String × Option String)) :
    (checkBlacklist bl tn params).blocked = true →
      (checkBlacklist bl tn params).messages ≠ [] := by
  unfold checkBlacklist
  exact blockedParamScan_messages_invariant params bl.blockedParams _
    (blockedToolScan_blocked_messages tn bl.blockedTools)

/-!  ## Claim theorems -/

/-- C1 (counterexample): the claim says `requires_confirmation` is true
whenever a blacklist hit occurs, but on a blacklist hit
`_process_tool_call` returns the blocked early-exit dictionary with
`requires_confirmation=False` (and `risk_score=1.0`, which also exceeds
the default 0.6 threshold), so the claim fails at this concrete input. -/
theorem C1_blacklist_hit_confirmation_counterexample :
    let eng : RuleEngineState := ⟨⟨[⟨"delete_file", none⟩], []⟩, []⟩
    let r := processToolCall eng defaultRiskConfig "req1" "u1" "wipe it" "call1"
      "delete_file" [] none ⟨[], []⟩
    (checkToolCall eng "delete_file" []).blacklistHit = true ∧
    r.1.riskScore = 1 ∧
    r.1.requiresConfirmation = false := by
  refine ⟨by decide, rfl, by decide⟩

/-- C1 (amended): for every draft, the per-call `requires_confirmation`
flag is true exactly when the rule check does not block the call and the
assessed risk score reaches the confirmation threshold or a matched rule
carries action `force_confirm`; a blocked call (in particular every
blacklist hit) instead reports `requires_confirmation=false`. -/
theorem C1_requires_confirmation_amended (eng : RuleEngineState) (cfg : RiskConfig)
    (rid uid q tid tn : String) (params : List (String × Option String))
    (hist : Option HistoricalAnalysis) (db : DBState) :
    ((processToolCall eng cfg rid uid q tid tn params hist db).1.requiresConfirmation = true ↔
      ((checkToolCall eng tn params).blocked = false ∧
        (cfg.confirmationThreshold ≤
            (assessToolRisk cfg tn params hist (some (checkToolCall eng tn params))).riskScore ∨
          (checkToolCall eng tn params).forceConfirm = true))) := by
  by_cases hb : (checkToolCall eng tn params).blocked
  · simp [processToolCall, hb]
  · simp only [processToolCall, hb, if_neg (by simp [hb] : ¬(checkToolCall eng tn params).blocked = true)]
    simp [assess_requiresConfirmation_def, hb, Bool.or_eq_true, decide_eq_true_iff]

/-- C2 (code bug): routing does not consult the circuit breaker.  An active
L1 service whose breaker is `"open"` still has its tool offered by
`route_tools`, because `get_active_services` filters only on `is_active`
and `_get_core_tools` takes every such service's tools. -/
theorem C2_open_breaker_tools_still_routed :
    let svc : ServiceRecord :=
      { serviceName := "files", isActive := true, healthStatus := "degraded",
        failedCalls := 7, circuitBreakerState := "open",
        circuitBreakerOpenedAt := some 0, lastHealthCheck := none,
        tools := [⟨some "t1", none⟩], layer := some "L1", domain := none }
    svc.circuitBreakerState = "open" ∧
    (routeTools [svc] "hello" none).totalTools = [⟨some "t1", none⟩] := by
  exact ⟨rfl, by decide⟩

/-- C3: a blacklist hit makes `check_tool_call` report
`blacklist_hit=true` and `blocked=true` with at least one reason message,
and rule evaluation is bypassed entirely (`matched_rules` stays empty), so
the block stands regardless of any `force_confirm` rule in the engine. -/
theorem C3_blacklist_short_circuits (eng : RuleEngineState) (tn : String)
    (params : List (String × Option String))
    (h : (checkBlacklist eng.blacklist tn params).blocked = true) :
    (checkToolCall eng tn params).blacklistHit = true ∧
    (checkToolCall eng tn params).blocked = true ∧
    (checkToolCall eng tn params).matchedRules = [] ∧
    (checkToolCall eng tn params).messages ≠ [] := by
  refine ⟨?_, ?_, ?_, ?_⟩ <;> simp [checkToolCall, h]
  exact checkBlacklist_blocked_messages eng.blacklist tn params h

/-- C3 witness: a concrete blacklisted tool name in an engine that also
contains an unconditionally matching `force_confirm` rule. -/
theorem C3_blacklist_short_circuits_witness :
    (checkBlacklist ⟨[⟨"rm", some "dangerous"⟩], []⟩ "rm" []).blocked = true ∧
    ((checkToolCall ⟨⟨[⟨"rm", some "dangerous"⟩], []⟩,
        [⟨"r1", none, some "force_confirm", none, none, []⟩]⟩ "rm" []).blacklistHit = true ∧
      (checkToolCall ⟨⟨[⟨"rm", some "dangerous"⟩], []⟩,
        [⟨"r1", none, some "force_confirm", none, none, []⟩]⟩ "rm" []).blocked = true ∧
      (checkToolCall ⟨⟨[⟨"rm", some "dangerous"⟩], []⟩,
        [⟨"r1", none, some "force_confirm", none, none, []⟩]⟩ "rm" []).matchedRules = [] ∧
      (checkToolCall ⟨⟨[⟨"rm", some "dangerous"⟩], []⟩,
        [⟨"r1", none, some "force_confirm", none, none, []⟩]⟩ "rm" []).messages ≠ []) :=
  ⟨by decide, C3_blacklist_short_circuits _ _ _ (by decide)⟩

/-- C8 (code bug): in the draft loop of `process_query` a fault while
evaluating one tool-call draft aborts the whole loop: with two drafts
where the first evaluation raises, the result is the propagated error and
the second draft's result is never produced, contradicting the claim that
sibling drafts are still evaluated and included. -/
theorem C8_draft_fault_aborts_siblings :
    processDrafts
      (fun n => if n = 0 then Except.error "malformed arguments" else Except.ok n)
      [0, 1] = Except.error "malformed arguments" := rfl

/-- C9: a `blocked_tools` entry whose `tool_name` field is absent or empty
(both read back as the empty string) blocks every tool call, because
`re.search` with an empty pattern matches any string. -/
theorem C9_empty_pattern_blocks_all (eng : RuleEngineState) (tn : String)
    (params : List (String × Option String))
    (h : ∃ bt ∈ eng.blacklist.blockedTools, bt.toolName = "") :
    (checkToolCall eng tn params).blocked = true := by
  obtain ⟨bt, hmem, hname⟩ := h
  have hhit : toolHit tn bt = true := by
    have : reSearch bt.toolName tn = true := by
      rw [hname]
      simpa [reSearch] using hasSubstr_nil_left tn.data
    simp [toolHit, this]
  have h1 : (blockedToolScan tn eng.blacklist.blockedTools).blocked = true :=
    blockedToolScan_blocked_of_hit tn _ bt hmem hhit
  have h2 : (checkBlacklist eng.blacklist tn params).blocked = true :=
    blockedParamScan_preserves_blocked params eng.blacklist.blockedParams _ h1
  simp [checkToolCall, h2]

/-- C9 witness: a singleton blacklist with an empty tool-name pattern
blocks an arbitrary concrete call. -/
theorem C9_empty_pattern_blocks_all_witness :
    (⟨"", none⟩ : BlockedTool) ∈
        (⟨⟨[⟨"", none⟩], []⟩, []⟩ : RuleEngineState).blacklist.blockedTools ∧
    (checkToolCall ⟨⟨[⟨"", none⟩], []⟩, []⟩ "any_harmless_tool" [("x", some "1")]).blocked = true :=
  ⟨by decide,
    C9_empty_pattern_blocks_all _ _ _ ⟨⟨"", none⟩, by decide, rfl⟩⟩

/-- C10: a draft the rule check blocks makes `_process_tool_call` return
before persistence: the audit table and the vector index are exactly the
input ones (no `ToolCallHistory` record, no stored embedding), and the
returned result carries `blocked=true`. -/
theorem C10_blocked_draft_frame (eng : RuleEngineState) (cfg : RiskConfig)
    (rid uid q tid tn : String) (params : List (String × Option String))
    (hist : Option HistoricalAnalysis) (db : DBState)
    (h : (checkToolCall eng tn params).blocked = true) :
    (processToolCall eng cfg rid uid q tid tn params hist db).2 = db ∧
    (processToolCall eng cfg rid uid q tid tn params hist db).1.blocked = true := by
  constructor <;> simp [processToolCall, h]

/-- C10 witness: a blocked concrete draft leaves a concrete store
untouched. -/
theorem C10_blocked_draft_frame_witness :
    (checkToolCall ⟨⟨[⟨"drop_table", none⟩], []⟩, []⟩ "drop_table" []).blocked = true ∧
    (processToolCall ⟨⟨[⟨"drop_table", none⟩], []⟩, []⟩ defaultRiskConfig
        "req2" "u2" "drop it" "call2" "drop_table" [] none ⟨[], []⟩).2 = ⟨[], []⟩ :=
  ⟨by decide,
    (C10_blocked_draft_frame ⟨⟨[⟨"drop_table", none⟩], []⟩, []⟩ defaultRiskConfig
      "req2" "u2" "drop it" "call2" "drop_table" [] none ⟨[], []⟩ (by decide)).1⟩

/-- C4: `update_circuit_breaker` implements exactly the three-state breaker
machine.  In `closed`, a failure report with `failed_calls` at the
threshold opens the breaker and otherwise nothing changes; in `open`, once
`timeout_duration` has elapsed since the recorded opening time the state
becomes `half_open` and otherwise nothing changes (also when no opening
time is recorded); in `half_open`, a success closes the breaker and a
failure re-opens it; any other state is left untouched. -/
theorem C4_circuit_breaker_machine (cfg : BreakerConfig) (now : ℚ) (success : Bool)
    (s : ServiceRecord) :
    (s.circuitBreakerState = "closed" →
      (updateCircuitBreaker cfg now success s).circuitBreakerState =
        (if success = false ∧ cfg.failureThreshold ≤ s.failedCalls then "open"
         else "closed")) ∧
    (s.circuitBreakerState = "closed" →
      (success = true ∨ s.failedCalls < cfg.failureThreshold) →
      updateCircuitBreaker cfg now success s = s) ∧
    (∀ t, s.circuitBreakerState = "open" → s.circuitBreakerOpenedAt = some t →
      (updateCircuitBreaker cfg now success s).circuitBreakerState =
        (if cfg.timeoutDuration ≤ now - t then "half_open" else "open")) ∧
    (∀ t, s.circuitBreakerState = "open" → s.circuitBreakerOpenedAt = some t →
      now - t < cfg.timeoutDuration →
      updateCircuitBreaker cfg now success s = s) ∧
    (s.circuitBreakerState = "open" → s.circuitBreakerOpenedAt = none →
      updateCircuitBreaker cfg now success s = s) ∧
    (s.circuitBreakerState = "half_open" →
      (updateCircuitBreaker cfg now success s).circuitBreakerState =
        (if success then "closed" else "open")) ∧
    (s.circuitBreakerState ≠ "closed" → s.circuitBreakerState ≠ "open" →
      s.circuitBreakerState ≠ "half_open" →
      updateCircuitBreaker cfg now success s = s) := by
  refine ⟨?_, ?_, ?_, ?_, ?_, ?_, ?_⟩
  · intro hc
    cases success with
    | true => simp [updateCircuitBreaker, hc]
    | false =>
      by_cases hf : cfg.failureThreshold ≤ s.failedCalls <;>
        simp [updateCircuitBreaker, updateServiceHealth, hc, hf]
  · intro hc hother
    cases success with
    | true => simp [updateCircuitBreaker, hc]
    | false =>
      rcases hother with ht | hlt
      · cases ht
      · simp [updateCircuitBreaker, hc, Nat.not_le.mpr hlt]
  · intro t hc ht
    by_cases he : cfg.timeoutDuration ≤ now - t <;>
      simp [updateCircuitBreaker, updateServiceHealth, hc, ht, he]
  · intro t hc ht hlt
    simp [updateCircuitBreaker, hc, ht, not_le.mpr hlt]
  · intro hc ht
    simp [updateCircuitBreaker, hc, ht]
  · intro hc
    cases success with
    | true => simp [updateCircuitBreaker, updateServiceHealth, hc]
    | false => simp [updateCircuitBreaker, updateServiceHealth, hc]
  · intro h1 h2 h3
    simp [updateCircuitBreaker, h1, h2, h3]

/-- C4 witness: the closed-to-open transition at a concrete service whose
failure count has reached the threshold. -/
theorem C4_circuit_breaker_machine_witness :
    (updateCircuitBreaker ⟨5, 60⟩ 100 false
      { serviceName := "s1", isActive := true, healthStatus := "healthy",
        failedCalls := 5, circuitBreakerState := "closed",
        circuitBreakerOpenedAt := none, lastHealthCheck := none,
        tools := [], layer := some "L1", domain := none }).circuitBreakerState = "open" := by
  have h := (C4_circuit_breaker_machine ⟨5, 60⟩ 100 false
    { serviceName := "s1", isActive := true, healthStatus := "healthy",
      failedCalls := 5, circuitBreakerState := "closed",
      circuitBreakerOpenedAt := none, lastHealthCheck := none,
      tools := [], layer := some "L1", domain := none }).1 rfl
  simpa using h

/-- The `risk_level` bucketing of `assess_tool_risk`, stated over the
returned score. -/
lemma assess_riskLevel_def (cfg : RiskConfig) (tn : String)
    (params : List (String × Option String)) (hist : Option HistoricalAnalysis)
    (rr : Option RuleCheckResult) :
    (assessToolRisk cfg tn params hist rr).riskLevel =
      (if cfg.highRiskThreshold ≤ (assessToolRisk cfg tn params hist rr).riskScore
       then "high"
       else if cfg.confirmationThreshold ≤ (assessToolRisk cfg tn params hist rr).riskScore
       then "medium" else "low") := rfl

/-- C5: for every input the returned risk score lies in [0,1], and the
risk level is the step-function bucketing of that score: `"high"` iff the
score reaches `high_risk_threshold`, else `"medium"` iff it reaches
`confirmation_threshold`, else `"low"`. -/
theorem C5_score_bounds_level_buckets (cfg : RiskConfig) (tn : String)
    (params : List (String × Option String)) (hist : Option HistoricalAnalysis)
    (rr : Option RuleCheckResult) :
    0 ≤ (assessToolRisk cfg tn params hist rr).riskScore ∧
    (assessToolRisk cfg tn params hist rr).riskScore ≤ 1 ∧
    (assessToolRisk cfg tn params hist rr).riskLevel =
      (if cfg.highRiskThreshold ≤ (assessToolRisk cfg tn params hist rr).riskScore
       then "high"
       else if cfg.confirmationThreshold ≤ (assessToolRisk cfg tn params hist rr).riskScore
       then "medium" else "low") := by
  refine ⟨?_, ?_, assess_riskLevel_def cfg tn params hist rr⟩
  · rw [assess_riskScore_def]
    exact clamp01_nonneg _
  · rw [assess_riskScore_def]
    exact clamp01_le_one _

/-- C6: the default-configuration scenario `delete_file` with parameter
`path="/tmp/x"`, no history and no matched rules: sub-scores 0.9 / 0 /
0.3 / 0, final score 0.36, level `"low"`, no confirmation. -/
theorem C6_default_scenario :
    (assessToolRisk defaultRiskConfig "delete_file" [("path", some "/tmp/x")] none
      (some emptyRuleCheckResult)).baseRisk = 9/10 ∧
    (assessToolRisk defaultRiskConfig "delete_file" [("path", some "/tmp/x")] none
      (some emptyRuleCheckResult)).parameterRisk = 0 ∧
    (assessToolRisk defaultRiskConfig "delete_file" [("path", some "/tmp/x")] none
      (some emptyRuleCheckResult)).historicalRisk = 3/10 ∧
    (assessToolRisk defaultRiskConfig "delete_file" [("path", some "/tmp/x")] none
      (some emptyRuleCheckResult)).ruleRisk = 0 ∧
    (assessToolRisk defaultRiskConfig "delete_file" [("path", some "/tmp/x")] none
      (some emptyRuleCheckResult)).riskScore = 36/100 ∧
    (assessToolRisk defaultRiskConfig "delete_file" [("path", some "/tmp/x")] none
      (some emptyRuleCheckResult)).riskLevel = "low" ∧
    (assessToolRisk defaultRiskConfig "delete_file" [("path", some "/tmp/x")] none
      (some emptyRuleCheckResult)).requiresConfirmation = false := by
  have hb : calculateBaseRisk "delete_file" = 9/10 := rfl
  have hcount : countSensitiveEntries [("path", (some "/tmp/x" : Option String))] = 0 := by
    decide
  have hp : calculateParameterRisk [("path", some "/tmp/x")] = 0 := by
    simp [calculateParameterRisk, hcount]
  have hh : calculateHistoricalRisk none = 3/10 := rfl
  have hr : calculateRuleRisk (some emptyRuleCheckResult) = 0 := rfl
  have hscore : (assessToolRisk defaultRiskConfig "delete_file" [("path", some "/tmp/x")] none
      (some emptyRuleCheckResult)).riskScore = 36/100 := by
    rw [assess_riskScore_def, hb, hp, hh, hr]
    norm_num [clamp01, ratMin, ratMax]
  refine ⟨hb, hp, hh, hr, hscore, ?_, ?_⟩
  · rw [assess_riskLevel_def, hscore]
    norm_num [defaultRiskConfig]
  · rw [assess_requiresConfirmation_def, hscore]
    norm_num [defaultRiskConfig]

/-- C7 (counterexample): the claim's per-distinct-keyword formula disagrees
with `_calculate_parameter_risk` on a single parameter whose value contains
two distinct sensitive keywords: the code yields 0.3 (one increment per
parameter entry), the claimed formula 0.6. -/
theorem C7_distinct_keyword_counterexample :
    calculateParameterRisk [("a", some "password sudo")] ≠
      distinctKeywordParameterRisk [("a", some "password sudo")] := by
  have hc1 : countSensitiveEntries [("a", (some "password sudo" : Option String))] = 1 := by
    decide
  have hc2 : distinctSensitiveKeywords [("a", (some "password sudo" : Option String))] = 2 := by
    decide
  have hL : calculateParameterRisk [("a", some "password sudo")] = 3/10 := by
    simp [calculateParameterRisk, hc1]
    norm_num [ratMin]
  have hR : distinctKeywordParameterRisk [("a", some "password sudo")] = 6/10 := by
    simp [distinctKeywordParameterRisk, hc2]
    norm_num [ratMin]
  rw [hL, hR]
  norm_num

/-- C7 (amended): the parameter sub-score is a 0.3 increment per parameter
entry whose name or stringified value contains at least one sensitive
keyword (one increment per entry, not per distinct keyword), capped at
1.0, and it is 0 for an empty parameter map. -/
theorem C7_per_entry_increment_amended :
    (∀ ps, calculateParameterRisk ps =
      ratMin ((countSensitiveEntries ps : ℚ) * (3/10)) 1) ∧
    calculateParameterRisk [] = 0 := by
  constructor
  · intro ps
    cases ps with
    | nil =>
      simp [calculateParameterRisk, countSensitiveEntries]
      norm_num [ratMin]
    | cons p rest =>
      by_cases hk : 0 < countSensitiveEntries (p :: rest)
      · simp [calculateParameterRisk, hk]
      · have hk0 : countSensitiveEntries (p :: rest) = 0 := Nat.eq_zero_of_not_pos hk
        simp [calculateParameterRisk, hk, hk0]
        norm_num [ratMin]
  · rfl

end MCPMonitor
